import Mathlib

/-
Shallow embedding of the odin-socialmedia-frontend client (src/src/App.jsx).

Strings from the JavaScript program are modelled as lists of characters
(`List Char`), so that character-level operations such as trimming and the
character-class tests of the regular expressions are explicit. Error
messages produced by the program are kept as Lean `String` literals,
matching the literals in the source.

Asynchronous remote calls are modelled by passing the outcome of each
endpoint call as an explicit argument of type `Except String _` (the error
carries the message of the thrown `Error`). A handler then becomes a pure
function from the current component state and the call outcomes to the
list of requests it issues, the result it returns, and the next state.
-/

set_option autoImplicit false

namespace SocialApp

/-- The whitespace characters recognised by the JavaScript `trim` and the
regex class `\s`, restricted to the ASCII range used by the program. -/
def isWhitespaceChar (c : Char) : Bool :=
  c == ' ' || c == '\t' || c == '\n' || c == '\r' || c == '\x0b' || c == '\x0c'

/-- JavaScript `value.trim()`: drop leading and trailing whitespace. -/
def jsTrim (s : List Char) : List Char :=
  ((s.dropWhile isWhitespaceChar).reverse.dropWhile isWhitespaceChar).reverse

/-- JavaScript `a || b` on a validator result: a validator returns either
`null` (here `none`) or an error string; a string is falsy exactly when it
is empty. -/
def jsOr (a b : Option String) : Option String :=
  match a with
  | Option.some e => if e = "" then b else Option.some e
  | Option.none => b

/-- JavaScript `a || d` where `a` is an optional string field and `d` a
default string. -/
def jsOrDefault (a : Option String) (d : String) : String :=
  match a with
  | Option.some e => if e = "" then d else e
  | Option.none => d

/-! ### Data model -/

/-- A user identity as consulted by the client; only the `id` field is read
by the embedded operations (like-ownership, own-profile checks). -/
structure User where
  id : Nat
  deriving DecidableEq, Repr

/-- One entry of a post like collection. The server may deliver either a
nested user reference (`like.user`) or a direct user-id field
(`like.userId`); either may be absent. -/
structure LikeEntry where
  user : Option User
  userId : Option Nat
  deriving DecidableEq, Repr

/-- A post as consulted by the like toggle: its id and its (possibly
absent) like collection, as in `post.likes?`. -/
structure PostData where
  id : Nat
  likes : Option (List LikeEntry)
  deriving DecidableEq, Repr

/-- A parsed JSON body, of which the client only ever consults the `error`
field (when normalising a failed response). -/
structure JsonBody where
  errorField : Option String
  deriving DecidableEq, Repr

deriving instance DecidableEq for Except

/-- An HTTP response as seen by the API client: the success flag `res.ok`
and the outcome of `res.json()` (which can itself fail to parse). -/
structure HttpResponse where
  ok : Bool
  json : Except String JsonBody
  deriving DecidableEq, Repr

/-- The requests the embedded handlers can issue, one constructor per
call site, carrying the data serialised into the request. -/
inductive ApiRequest where
  | authLogin (username password : List Char)
  | authLogout
  | likeCreate (postId : Nat)
  | likeDelete (postId : Nat)
  | postCreate (content : List Char)
  | feedFetch
  deriving DecidableEq, Repr

/-- HTTP methods used by the client. -/
inductive Method where
  | GET
  | POST
  | DELETE
  | PATCH
  deriving DecidableEq, Repr

/-- The HTTP method each request is issued with in the source. -/
def ApiRequest.method : ApiRequest → Method
  | ApiRequest.authLogin _ _ => Method.POST
  | ApiRequest.authLogout => Method.POST
  | ApiRequest.likeCreate _ => Method.POST
  | ApiRequest.likeDelete _ => Method.DELETE
  | ApiRequest.postCreate _ => Method.POST
  | ApiRequest.feedFetch => Method.GET

/-- The endpoint path each request targets in the source. -/
def ApiRequest.path : ApiRequest → String
  | ApiRequest.authLogin _ _ => "/auth/login"
  | ApiRequest.authLogout => "/auth/logout"
  | ApiRequest.likeCreate postId => "/likes/" ++ toString postId
  | ApiRequest.likeDelete postId => "/likes/" ++ toString postId
  | ApiRequest.postCreate _ => "/posts"
  | ApiRequest.feedFetch => "/posts/feed"

/-! ### API client (`api.fetch`, `api.uploadFile`) -/

namespace api

/-- `api.fetch` error normalisation: on `!res.ok`, parse the body with
`res.json().catch(() => ({ error: 'Request failed' }))` and throw
`new Error(error.error || 'Request failed')`; on success return the parsed
body. -/
def fetchResult (res : HttpResponse) : Except String JsonBody :=
  if res.ok then res.json
  else
    let errorBody : JsonBody :=
      match res.json with
      | Except.ok b => b
      | Except.error _ => ⟨Option.some "Request failed"⟩
    Except.error (jsOrDefault errorBody.errorField "Request failed")

/-- `api.uploadFile`: on `!res.ok` throw `new Error('Upload failed')`; on
success return the parsed body. The error body is never consulted. -/
def uploadFile (res : HttpResponse) : Except String JsonBody :=
  if res.ok then res.json else Except.error "Upload failed"

end api

/-! ### Form validator -/

namespace validator

/-- `validator.required`: error when the value is falsy (the empty string)
or trims to the empty string. -/
def required (value : List Char) (fieldName : String) : Option String :=
  if value = [] ∨ jsTrim value = [] then Option.some (fieldName ++ " is required")
  else Option.none

/-- `validator.minLength`. -/
def minLength (value : List Char) (min : Nat) (fieldName : String) : Option String :=
  if value.length < min then
    Option.some (fieldName ++ " must be at least " ++ toString min ++ " characters")
  else Option.none

/-- `validator.maxLength`: error exactly when the length strictly exceeds
`max`, although the message reads "must be less than". -/
def maxLength (value : List Char) (max : Nat) (fieldName : String) : Option String :=
  if value.length > max then
    Option.some (fieldName ++ " must be less than " ++ toString max ++ " characters")
  else Option.none

/-- A character admitted by the regex class `[^\s@]`. -/
def emailAtomChar (c : Char) : Bool :=
  !isWhitespaceChar c && c != '@'

/-- Split at the first occurrence of `sep`: the prefix before it and, when
`sep` occurs, the remainder after it. -/
def splitAtChar (sep : Char) : List Char → List Char × Option (List Char)
  | [] => ([], Option.none)
  | c :: cs =>
      if c = sep then ([], Option.some cs)
      else
        let r := splitAtChar sep cs
        (c :: r.1, r.2)

/-- The tail holds a dot that is neither its first nor its last character:
the decomposition `[^\s@]+\.[^\s@]+` of the domain part. -/
def interiorDot (cs : List Char) : Bool :=
  match cs with
  | [] => false
  | _ :: t => t.dropLast.contains '.'

/-- The test of the regex `^[^\s@]+@[^\s@]+\.[^\s@]+$`: a nonempty local
part without whitespace or `@`, one `@`, and a domain part without
whitespace or `@` containing an interior dot. -/
def emailRegexTest (value : List Char) : Bool :=
  match splitAtChar '@' value with
  | (localPart, Option.some domainPart) =>
      !localPart.isEmpty && localPart.all emailAtomChar &&
        domainPart.all emailAtomChar && interiorDot domainPart
  | (_, Option.none) => false

/-- `validator.email`. -/
def email (value : List Char) : Option String :=
  if emailRegexTest value then Option.none
  else Option.some "Please enter a valid email address"

/-- A character admitted by the regex class `[a-zA-Z0-9_]`. -/
def isUsernameChar (c : Char) : Bool :=
  ('a' ≤ c && c ≤ 'z') || ('A' ≤ c && c ≤ 'Z') || ('0' ≤ c && c ≤ '9') || c == '_'

/-- The test of the regex `^[a-zA-Z0-9_]{3,20}$`. -/
def usernameRegexTest (value : List Char) : Bool :=
  decide (3 ≤ value.length) && decide (value.length ≤ 20) && value.all isUsernameChar

/-- `validator.username`. -/
def username (value : List Char) : Option String :=
  if usernameRegexTest value then Option.none
  else Option.some "Username must be 3-20 characters (letters, numbers, underscore only)"

/-- `validator.password`. -/
def password (value : List Char) : Option String :=
  if value.length < 6 then Option.some "Password must be at least 6 characters"
  else Option.none

end validator

/-! ### Session store (`AuthProvider`) -/

/-- The session state held by `AuthProvider`: the current identity
(`user`, `null` when anonymous) and the loading flag. -/
structure AuthState where
  user : Option User
  loading : Bool
  deriving DecidableEq, Repr

/-- The body of a successful authentication response; `data.user` is the
identity it carries. -/
structure AuthResponse where
  user : User
  deriving DecidableEq, Repr

namespace AuthProvider

/-- `login(username, password)`: issues the login request; on success sets
the identity from `data.user` and returns the data; on failure the thrown
error propagates before `setUser` runs, leaving the state unchanged. -/
def login (username password : List Char) (st : AuthState)
    (outcome : Except String AuthResponse) :
    ApiRequest × Except String AuthResponse × AuthState :=
  (ApiRequest.authLogin username password,
   match outcome with
   | Except.error e => (Except.error e, st)
   | Except.ok data => (Except.ok data, ⟨Option.some data.user, st.loading⟩))

/-- `logout()`: issues the logout request; on success sets the identity to
`null`; on failure the thrown error propagates before `setUser(null)` runs,
leaving the state unchanged. -/
def logout (st : AuthState) (outcome : Except String JsonBody) :
    ApiRequest × Except String Unit × AuthState :=
  (ApiRequest.authLogout,
   match outcome with
   | Except.error e => (Except.error e, st)
   | Except.ok _ => (Except.ok (), ⟨Option.none, st.loading⟩))

end AuthProvider

/-! ### Sign-in page validation -/

/-- The sign-in form data, `{ username, email, password, name }`. -/
structure SignInFormData where
  username : List Char
  email : List Char
  password : List Char
  name : List Char
  deriving DecidableEq, Repr

/-- The form mode: log-in or sign-up. -/
inductive Mode where
  | login
  | signup
  deriving DecidableEq, Repr

/-- The per-field validation errors gathered into `newErrors`; a field
absent from the object is `none`. -/
structure FormErrors where
  username : Option String
  password : Option String
  name : Option String
  email : Option String
  deriving DecidableEq, Repr

namespace SignInPage

/-- `SignInPage.validate`: username and password are checked in both
modes (presence first, then format); name and email only in sign-up mode. -/
def validate (mode : Mode) (formData : SignInFormData) : FormErrors :=
  let usernameError :=
    jsOr (validator.required formData.username "Username")
      (validator.username formData.username)
  let passwordError :=
    jsOr (validator.required formData.password "Password")
      (validator.password formData.password)
  match mode with
  | Mode.login => ⟨usernameError, passwordError, Option.none, Option.none⟩
  | Mode.signup =>
      ⟨usernameError, passwordError,
       validator.required formData.name "Name",
       jsOr (validator.required formData.email "Email")
         (validator.email formData.email)⟩

end SignInPage

/-! ### Post component (like toggle) -/

namespace Post

/-- One step of the scan `like.user?.id === user.id || like.userId === user.id`:
a missing field compares unequal to the numeric viewer id. -/
def likeMatchesViewer (like : LikeEntry) (viewer : User) : Bool :=
  (match like.user with
   | Option.some u => u.id == viewer.id
   | Option.none => false) ||
  (match like.userId with
   | Option.some uid => uid == viewer.id
   | Option.none => false)

/-- `isLiked`: `post.likes?.some(...)`; an absent like collection yields
`undefined`, which is falsy. -/
def isLiked (post : PostData) (viewer : User) : Bool :=
  match post.likes with
  | Option.some ls => ls.any (fun l => likeMatchesViewer l viewer)
  | Option.none => false

/-- `handleLike`: a DELETE to the likes endpoint when the post is liked by
the viewer, otherwise a POST to the same endpoint. -/
def handleLike (post : PostData) (viewer : User) : ApiRequest :=
  if isLiked post viewer then ApiRequest.likeDelete post.id
  else ApiRequest.likeCreate post.id

end Post

/-! ### Feed page (compose post) -/

/-- The feed page state: the post list, the compose draft, and the
in-flight flag. -/
structure FeedState where
  posts : List PostData
  newPost : List Char
  loading : Bool
  deriving DecidableEq, Repr

namespace FeedPage

/-- `loadFeed`: on success replaces the post list; a failure is caught
inside `loadFeed` and leaves the list unchanged. -/
def loadFeed (posts : List PostData) (outcome : Except String (List PostData)) :
    List PostData :=
  match outcome with
  | Except.ok ps => ps
  | Except.error _ => posts

/-- `handleCreatePost`: returns early on a draft that is falsy after
trimming, issuing no request; otherwise issues the create request and, on
its success, clears the draft and re-fetches the feed. The in-flight flag
is set for the duration and cleared in the `finally` block. -/
def handleCreatePost (st : FeedState) (createOutcome : Except String JsonBody)
    (feedOutcome : Except String (List PostData)) : List ApiRequest × FeedState :=
  if jsTrim st.newPost = [] then ([], st)
  else
    match createOutcome with
    | Except.error _ => ([ApiRequest.postCreate st.newPost], ⟨st.posts, st.newPost, false⟩)
    | Except.ok _ =>
        ([ApiRequest.postCreate st.newPost, ApiRequest.feedFetch],
         ⟨loadFeed st.posts feedOutcome, [], false⟩)

end FeedPage

/-! ### Helper lemmas -/

theorem jsTrim_eq_nil_iff (s : List Char) :
    jsTrim s = [] ↔ ∀ c ∈ s, isWhitespaceChar c = true := by
  unfold jsTrim
  rw [List.reverse_eq_nil_iff, List.dropWhile_eq_nil_iff]
  constructor
  · intro h c hc
    have hsplit : c ∈ List.takeWhile isWhitespaceChar s ++ List.dropWhile isWhitespaceChar s := by
      rw [List.takeWhile_append_dropWhile]
      exact hc
    rcases List.mem_append.mp hsplit with h1 | h2
    · exact List.mem_takeWhile_imp h1
    · exact h c (List.mem_reverse.mpr h2)
  · intro h c hc
    exact h c ((List.dropWhile_sublist isWhitespaceChar).subset (List.mem_reverse.mp hc))

theorem required_blank (value : List Char) (fieldName : String)
    (h : ∀ c ∈ value, isWhitespaceChar c = true) :
    validator.required value fieldName = Option.some (fieldName ++ " is required") := by
  unfold validator.required
  rw [if_pos (Or.inr ((jsTrim_eq_nil_iff value).mpr h))]

theorem required_eq_none_iff (value : List Char) (fieldName : String) :
    validator.required value fieldName = Option.none ↔
      ∃ c ∈ value, isWhitespaceChar c = false := by
  unfold validator.required
  by_cases h : value = [] ∨ jsTrim value = []
  · rw [if_pos h]
    have hall : ∀ c ∈ value, isWhitespaceChar c = true := by
      rcases h with rfl | h
      · intro c hc
        cases hc
      · exact (jsTrim_eq_nil_iff value).mp h
    constructor
    · intro hc
      cases hc
    · rintro ⟨c, hc, hw⟩
      rw [hall c hc] at hw
      cases hw
  · rw [if_neg h]
    constructor
    · intro _
      have hne : ¬ jsTrim value = [] := fun ht => h (Or.inr ht)
      rw [jsTrim_eq_nil_iff] at hne
      push_neg at hne
      rcases hne with ⟨c, hc, hw⟩
      exact ⟨c, hc, by simpa using hw⟩
    · intro _
      rfl

theorem jsOr_some_of_ne (m : String) (b : Option String) (h : m ≠ "") :
    jsOr (Option.some m) b = Option.some m := by
  simp [jsOr, h]

theorem validate_username_eq (mode : Mode) (fd : SignInFormData) :
    (SignInPage.validate mode fd).username =
      jsOr (validator.required fd.username "Username") (validator.username fd.username) := by
  cases mode <;> rfl

theorem validate_password_eq (mode : Mode) (fd : SignInFormData) :
    (SignInPage.validate mode fd).password =
      jsOr (validator.required fd.password "Password") (validator.password fd.password) := by
  cases mode <;> rfl

/-! ### Claim theorems -/

/-- C7: `validator.required` returns the presence error exactly for the
empty string and whitespace-only strings, and no error for any string
holding at least one non-whitespace character. -/
theorem required_blank_iff (value : List Char) (fieldName : String) :
    (validator.required value fieldName = Option.some (fieldName ++ " is required") ↔
      ∀ c ∈ value, isWhitespaceChar c = true) ∧
    (validator.required value fieldName = Option.none ↔
      ∃ c ∈ value, isWhitespaceChar c = false) := by
  refine ⟨?_, required_eq_none_iff value fieldName⟩
  constructor
  · intro h
    by_contra hall
    push_neg at hall
    rcases hall with ⟨c, hc, hw⟩
    have : validator.required value fieldName = Option.none :=
      (required_eq_none_iff value fieldName).mpr ⟨c, hc, by simpa using hw⟩
    rw [this] at h
    cases h
  · exact required_blank value fieldName

/-- C7 witness: the one-space string draws the presence error and a
one-letter string passes. -/
theorem required_blank_iff_witness :
    validator.required [' '] "Field" = Option.some "Field is required" ∧
    validator.required ['a'] "Field" = Option.none :=
  ⟨((required_blank_iff [' '] "Field").1.mpr (by decide)).trans (by decide),
   (required_blank_iff ['a'] "Field").2.mpr ⟨'a', by decide, by decide⟩⟩

/-- C10: `validator.maxLength` accepts a string whose length equals the
bound; only strictly longer strings are rejected, with a message reading
"must be less than" the bound. -/
theorem maxLength_boundary (v : List Char) (max : Nat) (fieldName : String) :
    (v.length = max → validator.maxLength v max fieldName = Option.none) ∧
    (validator.maxLength v max fieldName = Option.none ↔ v.length ≤ max) ∧
    (v.length > max → validator.maxLength v max fieldName =
      Option.some (fieldName ++ " must be less than " ++ toString max ++ " characters")) := by
  unfold validator.maxLength
  by_cases h : v.length > max
  · rw [if_pos h]
    refine ⟨fun he => absurd h (by omega), ⟨(fun hc => by cases hc), fun hc => absurd hc (by omega)⟩,
      fun _ => rfl⟩
  · rw [if_neg h]
    exact ⟨fun _ => rfl, by constructor <;> (intro _; first | omega | rfl), fun hg => absurd hg h⟩

/-- C10 witness: a three-character string at bound three passes; at bound
two it is rejected. -/
theorem maxLength_boundary_witness :
    validator.maxLength ['a', 'b', 'c'] 3 "Field" = Option.none ∧
    validator.maxLength ['a', 'b', 'c'] 2 "Field" =
      Option.some "Field must be less than 2 characters" :=
  ⟨(maxLength_boundary ['a', 'b', 'c'] 3 "Field").1 (by decide),
   ((maxLength_boundary ['a', 'b', 'c'] 2 "Field").2.2 (by decide)).trans (by decide)⟩

/-- C8: `validator.username` accepts exactly the strings of 3 to 20
characters over letters, digits and underscore; it rejects "ab", accepts
"valid_user1", and rejects "bad name!". -/
theorem username_charset_bounds :
    (∀ v : List Char, validator.username v = Option.none ↔
      3 ≤ v.length ∧ v.length ≤ 20 ∧ ∀ c ∈ v, validator.isUsernameChar c = true) ∧
    validator.username "ab".data =
      Option.some "Username must be 3-20 characters (letters, numbers, underscore only)" ∧
    validator.username "valid_user1".data = Option.none ∧
    validator.username "bad name!".data =
      Option.some "Username must be 3-20 characters (letters, numbers, underscore only)" := by
  refine ⟨fun v => ?_, by decide, by decide, by decide⟩
  unfold validator.username
  by_cases h : validator.usernameRegexTest v = true
  · rw [if_pos h]
    simp only [validator.usernameRegexTest, Bool.and_eq_true, decide_eq_true_eq,
      List.all_eq_true] at h
    exact iff_of_true rfl ⟨h.1.1, h.1.2, h.2⟩
  · rw [if_neg h]
    constructor
    · intro hc
      cases hc
    · rintro ⟨h1, h2, h3⟩
      refine absurd ?_ h
      simp only [validator.usernameRegexTest, Bool.and_eq_true, decide_eq_true_eq,
        List.all_eq_true]
      exact ⟨⟨h1, h2⟩, h3⟩

/-- C8 witness: a six-character word of letters, digits and underscore is
accepted via the characterisation. -/
theorem username_charset_bounds_witness :
    validator.username "user_1".data = Option.none :=
  (username_charset_bounds.1 "user_1".data).mpr (by decide)

/-- C5: per field, the presence check runs before the format check: a
blank value reports the presence error, never the format error, and the
format validator is only consulted once presence passes. -/
theorem validate_presence_first (mode : Mode) (fd : SignInFormData) :
    ((∀ c ∈ fd.username, isWhitespaceChar c = true) →
      (SignInPage.validate mode fd).username = Option.some "Username is required") ∧
    ((∀ c ∈ fd.password, isWhitespaceChar c = true) →
      (SignInPage.validate mode fd).password = Option.some "Password is required") ∧
    ((∀ c ∈ fd.email, isWhitespaceChar c = true) →
      (SignInPage.validate Mode.signup fd).email = Option.some "Email is required") ∧
    ((∀ c ∈ fd.name, isWhitespaceChar c = true) →
      (SignInPage.validate Mode.signup fd).name = Option.some "Name is required") ∧
    (validator.required fd.username "Username" = Option.none →
      (SignInPage.validate mode fd).username = validator.username fd.username) ∧
    (validator.required fd.password "Password" = Option.none →
      (SignInPage.validate mode fd).password = validator.password fd.password) := by
  refine ⟨fun h => ?_, fun h => ?_, fun h => ?_, fun h => ?_, fun h => ?_, fun h => ?_⟩
  · rw [validate_username_eq, required_blank _ _ h]
    exact (jsOr_some_of_ne _ _ (by decide)).trans (by decide)
  · rw [validate_password_eq, required_blank _ _ h]
    exact (jsOr_some_of_ne _ _ (by decide)).trans (by decide)
  · show jsOr (validator.required fd.email "Email") (validator.email fd.email) = _
    rw [required_blank _ _ h]
    exact (jsOr_some_of_ne _ _ (by decide)).trans (by decide)
  · show validator.required fd.name "Name" = _
    rw [required_blank _ _ h]
    decide
  · rw [validate_username_eq, h]
    rfl
  · rw [validate_password_eq, h]
    rfl

/-- C5 witness: a whitespace-only username reports the presence error in
log-in mode. -/
theorem validate_presence_first_witness :
    (SignInPage.validate Mode.login ⟨[' '], [], ['a'], []⟩).username =
      Option.some "Username is required" :=
  (validate_presence_first Mode.login ⟨[' '], [], ['a'], []⟩).1 (by decide)

/-- C6: validation is mode-dependent: in log-in mode the name and email
fields never produce errors and do not influence the result, while
sign-up mode additionally checks name (presence) and email (presence then
format); username and password are checked identically in both modes. -/
theorem validate_mode_dependent (fd : SignInFormData) (n1 n2 e1 e2 : List Char) :
    SignInPage.validate Mode.login ⟨fd.username, e1, fd.password, n1⟩ =
      SignInPage.validate Mode.login ⟨fd.username, e2, fd.password, n2⟩ ∧
    (SignInPage.validate Mode.login fd).name = Option.none ∧
    (SignInPage.validate Mode.login fd).email = Option.none ∧
    (SignInPage.validate Mode.signup fd).name = validator.required fd.name "Name" ∧
    (SignInPage.validate Mode.signup fd).email =
      jsOr (validator.required fd.email "Email") (validator.email fd.email) ∧
    (SignInPage.validate Mode.signup fd).username = (SignInPage.validate Mode.login fd).username ∧
    (SignInPage.validate Mode.signup fd).password = (SignInPage.validate Mode.login fd).password :=
  ⟨rfl, rfl, rfl, rfl, rfl, rfl, rfl⟩

theorem likeMatches_iff (l : LikeEntry) (viewer : User) :
    Post.likeMatchesViewer l viewer = true ↔
      (∃ u, l.user = Option.some u ∧ u.id = viewer.id) ∨ l.userId = Option.some viewer.id := by
  rcases l with ⟨u, uid⟩
  cases u <;> cases uid <;>
    simp [Post.likeMatchesViewer, Option.some.injEq, Nat.beq_eq_true_eq]

theorem isLiked_iff (post : PostData) (viewer : User) :
    Post.isLiked post viewer = true ↔
      ∃ ls, post.likes = Option.some ls ∧ ∃ l ∈ ls,
        (∃ u, l.user = Option.some u ∧ u.id = viewer.id) ∨
          l.userId = Option.some viewer.id := by
  rcases post with ⟨pid, likes⟩
  cases likes <;> simp [Post.isLiked, List.any_eq_true, likeMatches_iff]

/-- C1 counterexample: when the logout endpoint call fails, the session
state is not set to anonymous; the identity survives, refuting the
claimed unconditional clearing for every outcome. -/
theorem logout_failure_keeps_identity :
    (AuthProvider.logout ⟨Option.some ⟨1⟩, false⟩ (Except.error "network down")).2.2.user =
      Option.some ⟨1⟩ ∧
    (AuthProvider.logout ⟨Option.some ⟨1⟩, false⟩ (Except.error "network down")).2.2.user ≠
      Option.none :=
  ⟨rfl, by decide⟩

/-- C1 amended: `logout` always issues the logout request; on a successful
call it sets the state to anonymous, but on a failed call the error
propagates and the state is left unchanged. -/
theorem logout_outcome_dependent (st : AuthState) (outcome : Except String JsonBody) :
    (AuthProvider.logout st outcome).1 = ApiRequest.authLogout ∧
    (∀ b, outcome = Except.ok b →
      (AuthProvider.logout st outcome).2.2.user = Option.none ∧
      (AuthProvider.logout st outcome).2.1 = Except.ok ()) ∧
    (∀ e, outcome = Except.error e →
      (AuthProvider.logout st outcome).2.2 = st ∧
      (AuthProvider.logout st outcome).2.1 = Except.error e) := by
  refine ⟨rfl, ?_, ?_⟩ <;> rintro x rfl <;> exact ⟨rfl, rfl⟩

/-- C1 amended witness: a successful call clears the identity, a failed
call keeps the whole state. -/
theorem logout_outcome_dependent_witness :
    (AuthProvider.logout ⟨Option.some ⟨2⟩, false⟩ (Except.ok ⟨Option.none⟩)).2.2.user =
      Option.none ∧
    (AuthProvider.logout ⟨Option.some ⟨2⟩, false⟩ (Except.error "down")).2.2 =
      ⟨Option.some ⟨2⟩, false⟩ :=
  ⟨((logout_outcome_dependent ⟨Option.some ⟨2⟩, false⟩ (Except.ok ⟨Option.none⟩)).2.1
      ⟨Option.none⟩ rfl).1,
   ((logout_outcome_dependent ⟨Option.some ⟨2⟩, false⟩ (Except.error "down")).2.2
      "down" rfl).1⟩

/-- C2: for every username and password, a failed login call propagates
the error to the caller and leaves the session state unchanged; in
particular an anonymous state stays anonymous with the identity unset. -/
theorem login_failure_leaves_state (username password : List Char) (st : AuthState)
    (outcome : Except String AuthResponse) (e : String) (h : outcome = Except.error e) :
    (AuthProvider.login username password st outcome).2.1 = Except.error e ∧
    (AuthProvider.login username password st outcome).2.2 = st ∧
    (st.user = Option.none →
      (AuthProvider.login username password st outcome).2.2.user = Option.none) := by
  subst h
  exact ⟨rfl, rfl, fun hu => hu⟩

/-- C2 witness: a concrete failed login from the anonymous state. -/
theorem login_failure_leaves_state_witness :
    (AuthProvider.login ['u'] ['p'] ⟨Option.none, false⟩
      (Except.error "Invalid credentials")).2.2.user = Option.none :=
  (login_failure_leaves_state ['u'] ['p'] ⟨Option.none, false⟩
    (Except.error "Invalid credentials") "Invalid credentials" rfl).2.2 rfl

/-- C3: the like toggle issues a DELETE to the likes endpoint exactly when
some entry of the like collection matches the viewer id under either
representation (nested user reference or direct user-id field), and a POST
to the same endpoint otherwise. -/
theorem handleLike_delete_iff_liked (post : PostData) (viewer : User) :
    (Post.handleLike post viewer = ApiRequest.likeDelete post.id ↔
      ∃ ls, post.likes = Option.some ls ∧ ∃ l ∈ ls,
        (∃ u, l.user = Option.some u ∧ u.id = viewer.id) ∨
          l.userId = Option.some viewer.id) ∧
    (Post.handleLike post viewer = ApiRequest.likeCreate post.id ↔
      ¬ ∃ ls, post.likes = Option.some ls ∧ ∃ l ∈ ls,
        (∃ u, l.user = Option.some u ∧ u.id = viewer.id) ∨
          l.userId = Option.some viewer.id) ∧
    (ApiRequest.likeDelete post.id).method = Method.DELETE ∧
    (ApiRequest.likeCreate post.id).method = Method.POST ∧
    (ApiRequest.likeDelete post.id).path = "/likes/" ++ toString post.id ∧
    (ApiRequest.likeCreate post.id).path = "/likes/" ++ toString post.id := by
  by_cases h : Post.isLiked post viewer = true
  · have hc := (isLiked_iff post viewer).mp h
    refine ⟨iff_of_true (by simp [Post.handleLike, h]) hc,
      iff_of_false ?_ (not_not_intro hc), rfl, rfl, rfl, rfl⟩
    simp [Post.handleLike, h]
  · have hc : ¬ _ := fun hx => h ((isLiked_iff post viewer).mpr hx)
    refine ⟨iff_of_false ?_ hc, iff_of_true (by simp [Post.handleLike, h]) hc,
      rfl, rfl, rfl, rfl⟩
    simp [Post.handleLike, h]

/-- C3 witness: a like entry carrying only the direct user-id field makes
the toggle issue the DELETE for that post. -/
theorem handleLike_delete_iff_liked_witness :
    Post.handleLike ⟨7, Option.some [⟨Option.none, Option.some 3⟩]⟩ ⟨3⟩ =
      ApiRequest.likeDelete 7 :=
  (handleLike_delete_iff_liked ⟨7, Option.some [⟨Option.none, Option.some 3⟩]⟩ ⟨3⟩).1.mpr
    ⟨[⟨Option.none, Option.some 3⟩], rfl, ⟨Option.none, Option.some 3⟩, by decide, Or.inr rfl⟩

/-- C4 counterexample: on a non-success upload response whose body carries
an `error` field, `api.uploadFile` surfaces the fixed message
"Upload failed" and not the body field, refuting the claim for the binary
upload operation. -/
theorem uploadFile_ignores_error_body :
    api.uploadFile ⟨false, Except.ok ⟨Option.some "Quota exceeded"⟩⟩ =
      Except.error "Upload failed" ∧
    api.uploadFile ⟨false, Except.ok ⟨Option.some "Quota exceeded"⟩⟩ ≠
      Except.error "Quota exceeded" :=
  ⟨rfl, by decide⟩

/-- C4 amended: on a non-success status the JSON request operation
surfaces the parsed body `error` field, falling back to "Request failed"
when parsing fails or the field is absent, while the binary upload
operation always fails with the fixed message "Upload failed"; every
failure is the single error kind carrying a message string. -/
theorem api_error_normalisation (res : HttpResponse) (b : JsonBody) (e m : String) :
    (res.ok = false →
      ((res.json = Except.ok b ∧ b.errorField = Option.some e ∧ e ≠ "") →
        api.fetchResult res = Except.error e) ∧
      ((res.json = Except.ok b ∧ b.errorField = Option.none) →
        api.fetchResult res = Except.error "Request failed") ∧
      (res.json = Except.error m → api.fetchResult res = Except.error "Request failed") ∧
      api.uploadFile res = Except.error "Upload failed") ∧
    (res.ok = true → api.fetchResult res = res.json ∧ api.uploadFile res = res.json) := by
  rcases res with ⟨ok, json⟩
  cases ok
  · refine ⟨fun _ => ⟨?_, ?_, ?_, rfl⟩, fun hc => by cases hc⟩
    · rintro ⟨rfl, hb, he⟩
      simp only [api.fetchResult, if_neg (by decide : ¬ false = true)]
      rw [hb]
      simp [jsOrDefault, he]
    · rintro ⟨rfl, hb⟩
      simp only [api.fetchResult, if_neg (by decide : ¬ false = true)]
      rw [hb]
      rfl
    · rintro rfl
      rfl
  · exact ⟨(fun hc => by cases hc), fun _ => ⟨rfl, rfl⟩⟩

/-- C4 amended witness: a non-success response with a parsed error body
surfaces the body message through the JSON operation and the fixed message
through the upload operation. -/
theorem api_error_normalisation_witness :
    api.fetchResult ⟨false, Except.ok ⟨Option.some "Boom"⟩⟩ = Except.error "Boom" ∧
    api.uploadFile ⟨false, Except.ok ⟨Option.some "Boom"⟩⟩ = Except.error "Upload failed" :=
  ⟨((api_error_normalisation ⟨false, Except.ok ⟨Option.some "Boom"⟩⟩ ⟨Option.some "Boom"⟩
      "Boom" "").1 rfl).1 ⟨rfl, rfl, by decide⟩,
   ((api_error_normalisation ⟨false, Except.ok ⟨Option.some "Boom"⟩⟩ ⟨Option.some "Boom"⟩
      "Boom" "").1 rfl).2.2.2⟩

/-- C9: submitting the compose-post form with a draft that is empty or
whitespace-only issues no request and leaves the feed state unchanged,
for every outcome of the (never issued) endpoint calls. -/
theorem createPost_blank_noop (st : FeedState) (createOutcome : Except String JsonBody)
    (feedOutcome : Except String (List PostData))
    (h : ∀ c ∈ st.newPost, isWhitespaceChar c = true) :
    FeedPage.handleCreatePost st createOutcome feedOutcome = ([], st) := by
  unfold FeedPage.handleCreatePost
  rw [if_pos ((jsTrim_eq_nil_iff st.newPost).mpr h)]

/-- C9 witness: a whitespace-only draft is a no-op on a concrete state. -/
theorem createPost_blank_noop_witness :
    FeedPage.handleCreatePost ⟨[], [' ', '\t'], false⟩ (Except.error "x") (Except.ok []) =
      ([], ⟨[], [' ', '\t'], false⟩) :=
  createPost_blank_noop ⟨[], [' ', '\t'], false⟩ (Except.error "x") (Except.ok [])
    (by decide)

end SocialApp
